import Mathlib

/-!
Shallow embedding of `aws-temp-creds.go` (package `awstempcreds`).

The Go program defines a struct `TempCredentialsProvider` with two methods:

* `Refresh()` — builds an `sts.AssumeRoleInput` (duration in whole seconds,
  role ARN, a session name `temp-<host>-<unixSeconds>` where the host falls
  back to `"unknown"` when `os.Hostname()` errors), calls
  `stsClient.AssumeRole` once, stores the returned output in `p.role`
  (the multiple assignment `p.role, err = ...` overwrites `p.role`
  unconditionally), and returns the error.

* `Credentials()` — if `time.Now().After(p.nextRefresh)` it calls
  `Refresh()`; on refresh error it returns `(nil, err)`; on success it sets
  `p.nextRefresh = time.Now().Add(p.Duration - 5*time.Minute)` (a second
  clock read).  It then dereferences `p.role.Credentials.AccessKeyID` etc.
  to build the returned `aws.Credentials`; a nil pointer anywhere in that
  chain is a runtime panic.

Modelling choices:

* `time.Duration` and `time.Time` are modelled as `Int` nanoseconds; the Go
  zero `time.Time` is the integer `0`, and `t.After(u)` is `u < t`.
  Machine-integer overflow is immaterial for the claims and is not modelled.
* Each clock read the code performs is a separate explicit input
  (`now1` at the `if`, `nowUnix` inside `Refresh`, `now2` after the refresh).
* The external collaborators (`os.Hostname`, `sts.AssumeRole`) are inputs:
  an environment record carries the hostname result and the collaborator
  function.  `AssumeRole` returns a Go pair `(*sts.AssumeRoleOutput, error)`,
  modelled as `Option AssumeRoleOutput × Option GoErr`; pointers are
  `Option`, a nil pointer is `none`.
* A nil-pointer dereference in `Credentials()` is modelled by the result
  constructor `CredentialsResult.panics`.
* `collabCalls` counts invocations of the role-assumption collaborator in a
  `Credentials()` call: `Refresh` contains exactly one `AssumeRole` call
  site on a straight-line path, so a call performs 1 collaborator call when
  the refresh branch is taken and 0 otherwise.
-/

/-- A Go `error` value (opaque; only identity matters). -/
structure GoErr where
  msg : String
deriving DecidableEq, Repr

/-- The pointer-valued fields of `sts.Credentials` (each `*string`). -/
structure STSCredentials where
  AccessKeyID : Option String
  SecretAccessKey : Option String
  SessionToken : Option String
deriving DecidableEq, Repr

/-- `sts.AssumeRoleOutput`, holding a `*sts.Credentials`. -/
structure AssumeRoleOutput where
  Credentials : Option STSCredentials
deriving DecidableEq, Repr

/-- The caller-facing `aws.Credentials` triple built by `Credentials()`. -/
structure AWSCredentials where
  AccessKeyID : String
  SecretAccessKey : String
  SessionToken : String
deriving DecidableEq, Repr

/-- The `sts.AssumeRoleInput` fields the program fills in. -/
structure AssumeRoleInput where
  DurationSeconds : Int
  RoleARN : String
  RoleSessionName : String
deriving DecidableEq, Repr

/-- The `aws.Config` the program passes to `sts.New`. -/
structure STSConfig where
  Region : String
deriving DecidableEq, Repr

/-- The struct `TempCredentialsProvider`.  `Duration` is `time.Duration`
(nanoseconds); `nextRefresh` is a `time.Time` as nanoseconds with the Go
zero time at `0`; `role` is the `*sts.AssumeRoleOutput` pointer. -/
structure TempCredentialsProvider where
  Region : String
  Duration : Int
  RoleARN : String
  role : Option AssumeRoleOutput
  nextRefresh : Int
deriving DecidableEq, Repr

/-- Nanoseconds in one second (`time.Second`). -/
def nsPerSecond : Int := 1000000000

/-- Nanoseconds in `5 * time.Minute`. -/
def fiveMinutes : Int := 5 * 60 * nsPerSecond

/-- External inputs consumed by one `Refresh()` invocation: the
`os.Hostname()` result, the `time.Now().Unix()` reading, and the
role-assumption collaborator. -/
structure RefreshEnv where
  hostnameResult : Except GoErr String
  nowUnix : Int
  assumeRole : STSConfig → AssumeRoleInput → Option AssumeRoleOutput × Option GoErr

/-- `hostname, err := os.Hostname(); if err != nil { hostname = "unknown" }`. -/
def hostnameOrUnknown : Except GoErr String → String
  | .ok h => h
  | .error _ => "unknown"

/-- `fmt.Sprintf("temp-%s-%d", hostname, time.Now().Unix())`. -/
def sessionName (host : String) (unixSeconds : Int) : String :=
  "temp-" ++ host ++ "-" ++ toString unixSeconds

/-- The `sts.AssumeRoleInput` literal built inside `Refresh()`:
`int64(p.Duration / time.Second)` is Go `int64` division, truncating toward
zero (`Int.tdiv`). -/
def mkAssumeRoleInput (p : TempCredentialsProvider) (env : RefreshEnv) : AssumeRoleInput :=
  { DurationSeconds := Int.tdiv p.Duration nsPerSecond
    RoleARN := p.RoleARN
    RoleSessionName := sessionName (hostnameOrUnknown env.hostnameResult) env.nowUnix }

/-- `Refresh()`: one `AssumeRole` call; the multiple assignment
`p.role, err = stsClient.AssumeRole(...)` stores the returned output pointer
in `p.role` unconditionally, and the error is returned. -/
def Refresh (p : TempCredentialsProvider) (env : RefreshEnv) :
    TempCredentialsProvider × Option GoErr :=
  let resp := env.assumeRole { Region := p.Region } (mkAssumeRoleInput p env)
  ({ p with role := resp.1 }, resp.2)

/-- External inputs consumed by one `Credentials()` invocation: the clock
read at the `if`, the `Refresh` environment, and the clock read at the
`p.nextRefresh` update. -/
structure CredsEnv where
  now1 : Int
  refreshEnv : RefreshEnv
  now2 : Int

/-- Outcome of `Credentials()`, which in Go returns
`(*aws.Credentials, error)` or panics on a nil-pointer dereference. -/
inductive CredentialsResult where
  | panics : CredentialsResult
  | errorResult : GoErr → CredentialsResult
  | ok : AWSCredentials → CredentialsResult
deriving DecidableEq, Repr

/-- The dereference chain `*p.role.Credentials.AccessKeyID` (and the secret
key and token): `none` anywhere models a nil-pointer panic. -/
def transposeRole (role : Option AssumeRoleOutput) : Option AWSCredentials :=
  match role with
  | none => none
  | some out =>
    match out.Credentials with
    | none => none
    | some c =>
      match c.AccessKeyID, c.SecretAccessKey, c.SessionToken with
      | some ak, some sk, some tok =>
        some { AccessKeyID := ak, SecretAccessKey := sk, SessionToken := tok }
      | _, _, _ => none

/-- Result of one `Credentials()` call: final struct state, returned value,
and the number of role-assumption collaborator calls made. -/
structure CallOutcome where
  state : TempCredentialsProvider
  result : CredentialsResult
  collabCalls : Nat

/-- `Credentials()`: refresh when `time.Now().After(p.nextRefresh)`, return
the error on refresh failure, otherwise reschedule with a fresh clock read
and transpose the stored role into `aws.Credentials`. -/
def CredentialsCall (p : TempCredentialsProvider) (env : CredsEnv) : CallOutcome :=
  if p.nextRefresh < env.now1 then
    let r := Refresh p env.refreshEnv
    match r.2 with
    | some e => { state := r.1, result := .errorResult e, collabCalls := 1 }
    | none =>
      let p2 := { r.1 with nextRefresh := env.now2 + r.1.Duration - fiveMinutes }
      { state := p2
        result := match transposeRole p2.role with
          | some c => .ok c
          | none => .panics
        collabCalls := 1 }
  else
    { state := p
      result := match transposeRole p.role with
        | some c => .ok c
        | none => .panics
      collabCalls := 0 }

/-! ## Unfolding lemmas for `CredentialsCall` -/

/-- When the clock has not passed `nextRefresh`, `Credentials()` is a pure
cache read: no state change, no collaborator call. -/
theorem CredentialsCall_not_triggered (p : TempCredentialsProvider) (env : CredsEnv)
    (h : ¬ p.nextRefresh < env.now1) :
    CredentialsCall p env =
      { state := p
        result := match transposeRole p.role with
          | some c => .ok c
          | none => .panics
        collabCalls := 0 } := by
  unfold CredentialsCall
  rw [if_neg h]

/-- When the refresh branch is taken and the collaborator reports an error,
the call returns that error with the post-`Refresh` state. -/
theorem CredentialsCall_triggered_fail (p : TempCredentialsProvider) (env : CredsEnv)
    (e : GoErr) (h : p.nextRefresh < env.now1)
    (hf : (Refresh p env.refreshEnv).2 = some e) :
    CredentialsCall p env =
      { state := (Refresh p env.refreshEnv).1
        result := .errorResult e
        collabCalls := 1 } := by
  unfold CredentialsCall
  rw [if_pos h]
  simp only [hf]

/-- When the refresh branch is taken and the collaborator succeeds, the call
reschedules from the second clock read and serves the transposed role. -/
theorem CredentialsCall_triggered_ok (p : TempCredentialsProvider) (env : CredsEnv)
    (h : p.nextRefresh < env.now1)
    (hok : (Refresh p env.refreshEnv).2 = none) :
    CredentialsCall p env =
      { state := { (Refresh p env.refreshEnv).1 with
                    nextRefresh := env.now2 + (Refresh p env.refreshEnv).1.Duration - fiveMinutes }
        result := match transposeRole (Refresh p env.refreshEnv).1.role with
          | some c => .ok c
          | none => .panics
        collabCalls := 1 } := by
  unfold CredentialsCall
  rw [if_pos h]
  simp only [hok]

/-! ## Concrete sample values for witnesses and counterexamples -/

/-- A credential triple as returned by a first successful assumption. -/
def output1 : AssumeRoleOutput :=
  { Credentials := some
      { AccessKeyID := some "AK1", SecretAccessKey := some "SK1", SessionToken := some "TOK1" } }

/-- A credential triple as returned by a second successful assumption. -/
def output2 : AssumeRoleOutput :=
  { Credentials := some
      { AccessKeyID := some "AK2", SecretAccessKey := some "SK2", SessionToken := some "TOK2" } }

/-- A collaborator that always succeeds with `output2`. -/
def okCollab : STSConfig → AssumeRoleInput → Option AssumeRoleOutput × Option GoErr :=
  fun _ _ => (some output2, none)

/-- A collaborator that always fails: nil output pointer plus an error,
the shape the AWS SDK produces on a failed `AssumeRole` call. -/
def failCollab : STSConfig → AssumeRoleInput → Option AssumeRoleOutput × Option GoErr :=
  fun _ _ => (none, some { msg := "AccessDenied" })

/-- A provider that already holds credentials from a refresh at `t = 0`
with `Duration = 3600s`: `nextRefresh = 3300s`. -/
def providerAfterFirstRefresh : TempCredentialsProvider :=
  { Region := "us-east-1"
    Duration := 3600 * nsPerSecond
    RoleARN := "arn:aws:iam::123456789012:role/demo"
    role := some output1
    nextRefresh := 3300 * nsPerSecond }

/-- A `Refresh` environment whose collaborator succeeds. -/
def refreshEnvOk : RefreshEnv :=
  { hostnameResult := .ok "host1", nowUnix := 3301, assumeRole := okCollab }

/-- A `Refresh` environment whose collaborator fails. -/
def refreshEnvFail : RefreshEnv :=
  { hostnameResult := .ok "host1", nowUnix := 3301, assumeRole := failCollab }

/-! ## Claim theorems -/

/-- C1: the claim states that a failed `Refresh()` leaves the stored `role`
triple exactly as it was.  The code's multiple assignment
`p.role, err = stsClient.AssumeRole(...)` overwrites `p.role` with the
returned output pointer even when the call fails.  Evaluated at the failing
input — a provider caching `output1` from a prior successful refresh, and a
collaborator that fails with a nil output and an `AccessDenied` error — the
error is propagated, but the cached triple is destroyed: `role` goes from
`some output1` to `none`, contradicting the claim. -/
theorem refresh_failure_overwrites_cached_role :
    providerAfterFirstRefresh.role = some output1 ∧
    (Refresh providerAfterFirstRefresh refreshEnvFail).2 = some { msg := "AccessDenied" } ∧
    (Refresh providerAfterFirstRefresh refreshEnvFail).1.role = none := by
  refine ⟨rfl, rfl, rfl⟩

/-- C3: if a `Credentials()` call triggers a refresh and the collaborator
fails, the call returns exactly that error (no credential triple), the
schedule `nextRefresh` is unchanged, and any strictly later clock reading
still satisfies the refresh trigger, so a later call attempts a refresh
again. -/
theorem credentials_failed_refresh_returns_error_and_preserves_schedule
    (p : TempCredentialsProvider) (env : CredsEnv) (e : GoErr)
    (htrig : p.nextRefresh < env.now1)
    (hfail : (Refresh p env.refreshEnv).2 = some e) :
    (CredentialsCall p env).result = .errorResult e ∧
    (CredentialsCall p env).state.nextRefresh = p.nextRefresh ∧
    ∀ t : Int, env.now1 < t → (CredentialsCall p env).state.nextRefresh < t := by
  rw [CredentialsCall_triggered_fail p env e htrig hfail]
  refine ⟨rfl, rfl, ?_⟩
  intro t ht
  show (Refresh p env.refreshEnv).1.nextRefresh < t
  have hpres : (Refresh p env.refreshEnv).1.nextRefresh = p.nextRefresh := rfl
  omega

/-- Witness for C3 at a concrete input: cached provider, call at
`t = 3301s`, failing collaborator. -/
theorem credentials_failed_refresh_witness :
    (providerAfterFirstRefresh.nextRefresh < 3301 * nsPerSecond ∧
      (Refresh providerAfterFirstRefresh refreshEnvFail).2 = some { msg := "AccessDenied" }) ∧
    ((CredentialsCall providerAfterFirstRefresh
        { now1 := 3301 * nsPerSecond, refreshEnv := refreshEnvFail,
          now2 := 3301 * nsPerSecond }).result = .errorResult { msg := "AccessDenied" } ∧
      (CredentialsCall providerAfterFirstRefresh
        { now1 := 3301 * nsPerSecond, refreshEnv := refreshEnvFail,
          now2 := 3301 * nsPerSecond }).state.nextRefresh = providerAfterFirstRefresh.nextRefresh ∧
      ∀ t : Int, 3301 * nsPerSecond < t →
        (CredentialsCall providerAfterFirstRefresh
          { now1 := 3301 * nsPerSecond, refreshEnv := refreshEnvFail,
            now2 := 3301 * nsPerSecond }).state.nextRefresh < t) := by
  have h1 : providerAfterFirstRefresh.nextRefresh < 3301 * nsPerSecond := by decide
  have h2 : (Refresh providerAfterFirstRefresh refreshEnvFail).2 = some { msg := "AccessDenied" } := rfl
  exact ⟨⟨h1, h2⟩,
    credentials_failed_refresh_returns_error_and_preserves_schedule
      providerAfterFirstRefresh
      { now1 := 3301 * nsPerSecond, refreshEnv := refreshEnvFail, now2 := 3301 * nsPerSecond }
      { msg := "AccessDenied" } h1 h2⟩

/-- C4: a freshly constructed provider has `role = nil` and `nextRefresh`
at the zero time.  For any clock reading strictly after the Go zero time —
which every real clock reading is, the zero `time.Time` being year 1 — the
first `Credentials()` call takes the refresh branch and makes exactly one
collaborator call. -/
theorem fresh_provider_first_call_makes_one_collab_call
    (p : TempCredentialsProvider) (env : CredsEnv)
    (_hrole : p.role = none) (hinit : p.nextRefresh = 0) (hclock : 0 < env.now1) :
    (CredentialsCall p env).collabCalls = 1 := by
  have htrig : p.nextRefresh < env.now1 := by omega
  unfold CredentialsCall
  rw [if_pos htrig]
  cases hfe : (Refresh p env.refreshEnv).2 with
  | none => simp only [hfe]
  | some e => simp only [hfe]

/-- A freshly constructed provider: config set, `role` nil, `nextRefresh`
at the Go zero time. -/
def freshProvider : TempCredentialsProvider :=
  { Region := "us-east-1"
    Duration := 3600 * nsPerSecond
    RoleARN := "arn:aws:iam::123456789012:role/demo"
    role := none
    nextRefresh := 0 }

/-- Witness for C4: a zero-initialised provider called at clock reading 1. -/
theorem fresh_provider_first_call_witness :
    (freshProvider.role = none ∧ freshProvider.nextRefresh = 0 ∧ (0 : Int) < 1) ∧
    (CredentialsCall freshProvider
      { now1 := 1, refreshEnv := refreshEnvOk, now2 := 1 }).collabCalls = 1 := by
  refine ⟨⟨rfl, rfl, by decide⟩, ?_⟩
  exact fresh_provider_first_call_makes_one_collab_call freshProvider
    { now1 := 1, refreshEnv := refreshEnvOk, now2 := 1 } rfl rfl (by decide)

/-- C6: when `time.Now()` is not after `nextRefresh`, `Credentials()` skips
the refresh and unconditionally dereferences `p.role.Credentials.*`.  That
state is reachable with a nil `role`: a direct `Refresh()` call whose
collaborator fails (returning a nil output pointer and an error) overwrites
`role` with nil while leaving `nextRefresh` — possibly still in the future
from a prior success — untouched; a `Credentials()` call at a clock reading
not after `nextRefresh` then panics with a nil-pointer dereference instead
of returning an error value. -/
theorem stale_read_after_failed_refresh_panics
    (p : TempCredentialsProvider) (envR : RefreshEnv) (env : CredsEnv) (e : GoErr)
    (hfail : envR.assumeRole { Region := p.Region } (mkAssumeRoleInput p envR) = (none, some e))
    (hnow : env.now1 ≤ p.nextRefresh) :
    (Refresh p envR).1.role = none ∧
    (CredentialsCall (Refresh p envR).1 env).result = .panics := by
  have hrole : (Refresh p envR).1.role = none := by
    show (envR.assumeRole { Region := p.Region } (mkAssumeRoleInput p envR)).1 = none
    rw [hfail]
  have hnext : (Refresh p envR).1.nextRefresh = p.nextRefresh := rfl
  have hnt : ¬ (Refresh p envR).1.nextRefresh < env.now1 := by omega
  refine ⟨hrole, ?_⟩
  rw [CredentialsCall_not_triggered _ env hnt]
  simp only [hrole, transposeRole]

/-- Witness for C6: provider holding credentials with `nextRefresh = 3300s`,
failed direct `Refresh()`, then a `Credentials()` call at `t = 3200s`. -/
theorem stale_read_after_failed_refresh_witness :
    (refreshEnvFail.assumeRole { Region := providerAfterFirstRefresh.Region }
        (mkAssumeRoleInput providerAfterFirstRefresh refreshEnvFail) =
        (none, some { msg := "AccessDenied" }) ∧
      (3200 * nsPerSecond : Int) ≤ providerAfterFirstRefresh.nextRefresh) ∧
    ((Refresh providerAfterFirstRefresh refreshEnvFail).1.role = none ∧
      (CredentialsCall (Refresh providerAfterFirstRefresh refreshEnvFail).1
        { now1 := 3200 * nsPerSecond, refreshEnv := refreshEnvFail,
          now2 := 3200 * nsPerSecond }).result = .panics) := by
  refine ⟨⟨rfl, by decide⟩, ?_⟩
  exact stale_read_after_failed_refresh_panics providerAfterFirstRefresh refreshEnvFail
    { now1 := 3200 * nsPerSecond, refreshEnv := refreshEnvFail, now2 := 3200 * nsPerSecond }
    { msg := "AccessDenied" } rfl (by decide)

/-- C7: every `Refresh()` invocation passes the collaborator the session
name `temp-<host>-<unixSeconds>`, where the host is the hostname-lookup
result or the literal `"unknown"` when that lookup errored; and the error
`Refresh()` returns is exactly the collaborator's error, so a
hostname-lookup failure never makes `Refresh()` itself fail. -/
theorem refresh_session_name_format_and_hostname_fallback
    (p : TempCredentialsProvider) (env : RefreshEnv) :
    (mkAssumeRoleInput p env).RoleSessionName =
      "temp-" ++ (match env.hostnameResult with
        | .ok h => h
        | .error _ => "unknown") ++ "-" ++ toString env.nowUnix ∧
    (Refresh p env).2 = (env.assumeRole { Region := p.Region } (mkAssumeRoleInput p env)).2 := by
  constructor
  · cases h : env.hostnameResult <;>
      simp [mkAssumeRoleInput, sessionName, hostnameOrUnknown, h]
  · rfl

/-- A provider whose duration has a fractional-second component:
3600.123456789 seconds. -/
def fractionalProvider : TempCredentialsProvider :=
  { Region := "us-east-1"
    Duration := 3600 * nsPerSecond + 123456789
    RoleARN := "arn:aws:iam::123456789012:role/demo"
    role := none
    nextRefresh := 0 }

/-- C8: the duration passed to the collaborator is the whole number of
seconds in the configured `Duration`, with any fractional second truncated:
`DurationSeconds` whole seconds fit inside `Duration`, and one second more
does not. -/
theorem refresh_duration_passed_as_truncated_seconds
    (p : TempCredentialsProvider) (env : RefreshEnv) (hpos : 0 ≤ p.Duration) :
    (mkAssumeRoleInput p env).DurationSeconds * nsPerSecond ≤ p.Duration ∧
    p.Duration < ((mkAssumeRoleInput p env).DurationSeconds + 1) * nsPerSecond := by
  have heq : (mkAssumeRoleInput p env).DurationSeconds = p.Duration / nsPerSecond :=
    Int.tdiv_eq_ediv hpos (by norm_num [nsPerSecond])
  rw [heq]
  simp only [nsPerSecond]
  omega

/-- Witness for C8 at a duration of 3600.123456789 seconds: the truncated
count is 3600 whole seconds, and the bounds hold there. -/
theorem refresh_duration_truncated_witness :
    ((0 : Int) ≤ fractionalProvider.Duration ∧
      (mkAssumeRoleInput fractionalProvider refreshEnvOk).DurationSeconds = 3600) ∧
    ((mkAssumeRoleInput fractionalProvider refreshEnvOk).DurationSeconds * nsPerSecond ≤
        fractionalProvider.Duration ∧
      fractionalProvider.Duration <
        ((mkAssumeRoleInput fractionalProvider refreshEnvOk).DurationSeconds + 1) * nsPerSecond) := by
  refine ⟨⟨by decide, by decide⟩, ?_⟩
  exact refresh_duration_passed_as_truncated_seconds fractionalProvider refreshEnvOk (by decide)

/-- A `Credentials()` call at `t = 3301s` whose refresh succeeds and whose
second clock read happens at `t = 3302s` (one second of refresh latency). -/
def envLateRefresh : CredsEnv :=
  { now1 := 3301 * nsPerSecond, refreshEnv := refreshEnvOk, now2 := 3302 * nsPerSecond }

/-- C2 counterexample: with `Duration = 3600s` and a prior refresh having
set `nextRefresh = 3300s`, a call at `t = 3301s` triggers a successful
refresh whose second clock read is `3302s`.  The code sets
`nextRefresh = 6602s`: not `now1 + Duration − 5min = 6601s` (the schedule is
computed from a second `time.Now()` read after the refresh, not from the
step-1 read), and not the `6600s` the claim asserts for a call at
`t = 3301`. -/
theorem credentials_reschedule_counterexample :
    providerAfterFirstRefresh.nextRefresh < envLateRefresh.now1 ∧
    (Refresh providerAfterFirstRefresh envLateRefresh.refreshEnv).2 = none ∧
    (CredentialsCall providerAfterFirstRefresh envLateRefresh).state.nextRefresh =
      6602 * nsPerSecond ∧
    (CredentialsCall providerAfterFirstRefresh envLateRefresh).state.nextRefresh ≠
      envLateRefresh.now1 + providerAfterFirstRefresh.Duration - fiveMinutes ∧
    (CredentialsCall providerAfterFirstRefresh envLateRefresh).state.nextRefresh ≠
      6600 * nsPerSecond := by
  refine ⟨by decide, rfl, by decide, by decide, by decide⟩

/-- C2 amended: when a `Credentials()` call triggers a refresh and the
refresh succeeds, `nextRefresh` is set to `now2 + Duration − 5 minutes`,
where `now2` is the clock read taken after the refresh returns (the code
calls `time.Now()` a second time at the update); with zero refresh latency
`now2` coincides with the step-1 read, so a refresh triggered at
`t = 3301s` with `Duration = 3600s` yields `nextRefresh = 6601s`. -/
theorem credentials_success_reschedules_from_second_clock_read
    (p : TempCredentialsProvider) (env : CredsEnv)
    (htrig : p.nextRefresh < env.now1)
    (hok : (Refresh p env.refreshEnv).2 = none) :
    (CredentialsCall p env).state.nextRefresh = env.now2 + p.Duration - fiveMinutes := by
  rw [CredentialsCall_triggered_ok p env htrig hok]
  rfl

/-- Witness for the amended C2: instantaneous refresh triggered at
`t = 3301s` yields `nextRefresh = 6601s`. -/
theorem credentials_success_reschedule_witness :
    (providerAfterFirstRefresh.nextRefresh < (3301 * nsPerSecond : Int) ∧
      (Refresh providerAfterFirstRefresh refreshEnvOk).2 = none) ∧
    ((CredentialsCall providerAfterFirstRefresh
        { now1 := 3301 * nsPerSecond, refreshEnv := refreshEnvOk,
          now2 := 3301 * nsPerSecond }).state.nextRefresh =
      3301 * nsPerSecond + providerAfterFirstRefresh.Duration - fiveMinutes ∧
      (3301 * nsPerSecond + providerAfterFirstRefresh.Duration - fiveMinutes : Int) =
        6601 * nsPerSecond) := by
  refine ⟨⟨by decide, rfl⟩, ?_, by decide⟩
  exact credentials_success_reschedules_from_second_clock_read providerAfterFirstRefresh
    { now1 := 3301 * nsPerSecond, refreshEnv := refreshEnvOk, now2 := 3301 * nsPerSecond }
    (by decide) rfl

/-- Helper: whenever a `Credentials()` call returns a triple, the final
state's stored role transposes to exactly that triple. -/
theorem result_ok_transpose (p : TempCredentialsProvider) (env : CredsEnv)
    (c : AWSCredentials) (h : (CredentialsCall p env).result = CredentialsResult.ok c) :
    transposeRole (CredentialsCall p env).state.role = some c := by
  by_cases htrig : p.nextRefresh < env.now1
  · cases hfe : (Refresh p env.refreshEnv).2 with
    | some e =>
      rw [CredentialsCall_triggered_fail p env e htrig hfe] at h
      exact CredentialsResult.noConfusion h
    | none =>
      rw [CredentialsCall_triggered_ok p env htrig hfe] at h ⊢
      revert h
      change (match transposeRole (Refresh p env.refreshEnv).1.role with
        | some c2 => CredentialsResult.ok c2
        | none => CredentialsResult.panics) = CredentialsResult.ok c →
        transposeRole (Refresh p env.refreshEnv).1.role = some c
      cases transposeRole (Refresh p env.refreshEnv).1.role with
      | none => intro h; exact CredentialsResult.noConfusion h
      | some c2 => intro h; injection h with hc; rw [hc]
  · rw [CredentialsCall_not_triggered p env htrig] at h ⊢
    revert h
    change (match transposeRole p.role with
      | some c2 => CredentialsResult.ok c2
      | none => CredentialsResult.panics) = CredentialsResult.ok c →
      transposeRole p.role = some c
    cases transposeRole p.role with
    | none => intro h; exact CredentialsResult.noConfusion h
    | some c2 => intro h; injection h with hc; rw [hc]

/-- C5: if one `Credentials()` call returned a triple and a second call is
made while the clock is not after the (possibly updated) `nextRefresh`, the
second call is a pure cache read: it performs zero collaborator calls,
leaves the whole provider state unchanged, and returns a triple with the
same three string fields as the first call's. -/
theorem credentials_cached_read_is_pure
    (p : TempCredentialsProvider) (env1 env2 : CredsEnv) (c : AWSCredentials)
    (h1 : (CredentialsCall p env1).result = CredentialsResult.ok c)
    (h2 : env2.now1 ≤ (CredentialsCall p env1).state.nextRefresh) :
    CredentialsCall (CredentialsCall p env1).state env2 =
      { state := (CredentialsCall p env1).state
        result := CredentialsResult.ok c
        collabCalls := 0 } := by
  have hok := result_ok_transpose p env1 c h1
  have hnt : ¬ (CredentialsCall p env1).state.nextRefresh < env2.now1 := by omega
  rw [CredentialsCall_not_triggered _ env2 hnt]
  simp only [hok]

/-- Witness for C5: first call at `t = 3301s` succeeds with the `AK2`
triple; second call at `t = 3302s` (not after the new `nextRefresh` of
`6601s`) is a pure read of the same triple. -/
theorem credentials_cached_read_witness :
    ((CredentialsCall providerAfterFirstRefresh
        { now1 := 3301 * nsPerSecond, refreshEnv := refreshEnvOk,
          now2 := 3301 * nsPerSecond }).result =
        CredentialsResult.ok
          { AccessKeyID := "AK2", SecretAccessKey := "SK2", SessionToken := "TOK2" } ∧
      (3302 * nsPerSecond : Int) ≤
        (CredentialsCall providerAfterFirstRefresh
          { now1 := 3301 * nsPerSecond, refreshEnv := refreshEnvOk,
            now2 := 3301 * nsPerSecond }).state.nextRefresh) ∧
    CredentialsCall
        (CredentialsCall providerAfterFirstRefresh
          { now1 := 3301 * nsPerSecond, refreshEnv := refreshEnvOk,
            now2 := 3301 * nsPerSecond }).state
        { now1 := 3302 * nsPerSecond, refreshEnv := refreshEnvFail,
          now2 := 3302 * nsPerSecond } =
      { state := (CredentialsCall providerAfterFirstRefresh
          { now1 := 3301 * nsPerSecond, refreshEnv := refreshEnvOk,
            now2 := 3301 * nsPerSecond }).state
        result := CredentialsResult.ok
          { AccessKeyID := "AK2", SecretAccessKey := "SK2", SessionToken := "TOK2" }
        collabCalls := 0 } := by
  refine ⟨⟨rfl, by decide⟩, ?_⟩
  exact credentials_cached_read_is_pure providerAfterFirstRefresh
    { now1 := 3301 * nsPerSecond, refreshEnv := refreshEnvOk, now2 := 3301 * nsPerSecond }
    { now1 := 3302 * nsPerSecond, refreshEnv := refreshEnvFail, now2 := 3302 * nsPerSecond }
    { AccessKeyID := "AK2", SecretAccessKey := "SK2", SessionToken := "TOK2" }
    rfl (by decide)

/-- Helper: a `Credentials()` call never changes the configuration fields
`Region`, `RoleARN`, `Duration`, in any branch. -/
theorem credentialsCall_preserves_config (p : TempCredentialsProvider) (env : CredsEnv) :
    (CredentialsCall p env).state.Region = p.Region ∧
    (CredentialsCall p env).state.RoleARN = p.RoleARN ∧
    (CredentialsCall p env).state.Duration = p.Duration := by
  by_cases htrig : p.nextRefresh < env.now1
  · cases hfe : (Refresh p env.refreshEnv).2 with
    | some e =>
      rw [CredentialsCall_triggered_fail p env e htrig hfe]
      exact ⟨rfl, rfl, rfl⟩
    | none =>
      rw [CredentialsCall_triggered_ok p env htrig hfe]
      exact ⟨rfl, rfl, rfl⟩
  · rw [CredentialsCall_not_triggered p env htrig]
    exact ⟨rfl, rfl, rfl⟩

/-- C9: `Refresh()` never touches `nextRefresh` (only `Credentials()`
updates it, on a successful refresh), and neither method changes the
configuration fields `Region`, `RoleARN`, `Duration`. -/
theorem refresh_and_credentials_frame_conditions
    (p : TempCredentialsProvider) (envR : RefreshEnv) (env : CredsEnv) :
    (Refresh p envR).1.nextRefresh = p.nextRefresh ∧
    (Refresh p envR).1.Region = p.Region ∧
    (Refresh p envR).1.RoleARN = p.RoleARN ∧
    (Refresh p envR).1.Duration = p.Duration ∧
    (CredentialsCall p env).state.Region = p.Region ∧
    (CredentialsCall p env).state.RoleARN = p.RoleARN ∧
    (CredentialsCall p env).state.Duration = p.Duration := by
  obtain ⟨h1, h2, h3⟩ := credentialsCall_preserves_config p env
  exact ⟨rfl, rfl, rfl, rfl, h1, h2, h3⟩

/-- C10: the refresh trigger `time.Now().After(p.nextRefresh)` is strict.
When the clock reading equals `nextRefresh` exactly, the call performs no
collaborator call, changes nothing, and returns the cached triple;
a collaborator call happens exactly when the clock reading is strictly
after `nextRefresh`. -/
theorem refresh_trigger_is_strict
    (p : TempCredentialsProvider) (env : CredsEnv) (c : AWSCredentials)
    (hc : transposeRole p.role = some c) :
    (env.now1 = p.nextRefresh →
      CredentialsCall p env =
        { state := p, result := CredentialsResult.ok c, collabCalls := 0 }) ∧
    ((CredentialsCall p env).collabCalls ≠ 0 → p.nextRefresh < env.now1) ∧
    (p.nextRefresh < env.now1 → (CredentialsCall p env).collabCalls = 1) := by
  refine ⟨?_, ?_, ?_⟩
  · intro heq
    have hnt : ¬ p.nextRefresh < env.now1 := by omega
    rw [CredentialsCall_not_triggered p env hnt]
    simp only [hc]
  · intro hcalls
    by_contra hnt
    rw [CredentialsCall_not_triggered p env hnt] at hcalls
    exact hcalls rfl
  · intro htrig
    cases hfe : (Refresh p env.refreshEnv).2 with
    | some e => rw [CredentialsCall_triggered_fail p env e htrig hfe]
    | none => rw [CredentialsCall_triggered_ok p env htrig hfe]

/-- Witness for C10: a call at exactly `t = 3300s = nextRefresh` is a pure
cache read of the `AK1` triple; a call at `t = 3301s` makes one
collaborator call. -/
theorem refresh_trigger_strict_witness :
    (transposeRole providerAfterFirstRefresh.role =
        some { AccessKeyID := "AK1", SecretAccessKey := "SK1", SessionToken := "TOK1" } ∧
      (3300 * nsPerSecond : Int) = providerAfterFirstRefresh.nextRefresh) ∧
    (CredentialsCall providerAfterFirstRefresh
        { now1 := 3300 * nsPerSecond, refreshEnv := refreshEnvOk,
          now2 := 3300 * nsPerSecond } =
      { state := providerAfterFirstRefresh
        result := CredentialsResult.ok
          { AccessKeyID := "AK1", SecretAccessKey := "SK1", SessionToken := "TOK1" }
        collabCalls := 0 } ∧
      (CredentialsCall providerAfterFirstRefresh
        { now1 := 3301 * nsPerSecond, refreshEnv := refreshEnvOk,
          now2 := 3301 * nsPerSecond }).collabCalls = 1) := by
  refine ⟨⟨rfl, by decide⟩, ?_, ?_⟩
  · exact (refresh_trigger_is_strict providerAfterFirstRefresh
      { now1 := 3300 * nsPerSecond, refreshEnv := refreshEnvOk, now2 := 3300 * nsPerSecond }
      { AccessKeyID := "AK1", SecretAccessKey := "SK1", SessionToken := "TOK1" }
      rfl).1 (by decide)
  · exact (refresh_trigger_is_strict providerAfterFirstRefresh
      { now1 := 3301 * nsPerSecond, refreshEnv := refreshEnvOk, now2 := 3301 * nsPerSecond }
      { AccessKeyID := "AK1", SecretAccessKey := "SK1", SessionToken := "TOK1" }
      rfl).2.2 (by decide)
